import Mathlib

/-!
Verification of `torchio/transforms/augmentation/spatial/random_affine.py`.

Shallow embedding conventions:
* machine floats are modelled by `ℚ` (for the sampling, border statistics and
  configuration logic, which are exact) and by `ℝ` (for the trigonometric
  rotation geometry);
* a NumPy 3-D array (the view returned by `sitk.GetArrayViewFromImage`) is a
  nested list `Arr3 := List (List (List ℚ))`, indexed in NumPy axis order;
* the external SimpleITK Otsu filter (`sitk.OtsuThresholdImageFilter`) is an
  external collaborator: it is passed as an explicit threshold function
  `otsuThreshold : List ℚ → ℚ`, so every theorem about the Otsu branch holds
  for the actual threshold the library computes, whatever its value; likewise
  the resampler's `Execute` is passed as a function `ResamplerConfig → Arr3`;
* the torch random source is an explicit stream of uniform draws in `[0, 1]`,
  consumed in program order.
-/

/-! ## Data model -/

/-- A 3-D NumPy array of intensities (the array view of an sitk image). -/
abbrev Arr3 : Type := List (List (List ℚ))

/-- An ordered triple, used for points, parameter vectors and scale factors. -/
structure Triple (α : Type) where
  x : α
  y : α
  z : α
deriving DecidableEq

/-- The interpolation enum imported by the source
(`from .. import Interpolation`). -/
inductive Interpolation where
  | NEAREST
  | LINEAR
  | BSPLINE
deriving DecidableEq

/-- The volume role tag compared against the `LABEL` constant in
`apply_transform`. -/
inductive ImageType where
  | LABEL
  | INTENSITY
deriving DecidableEq

/-- Storage precision of a torch tensor / sitk image. -/
inductive DType where
  | float32
  | float64
  | int16
deriving DecidableEq

/-- The `default_pad_value` argument: a string or a number
(`Union[str, float]`). -/
inductive PadInput where
  | str (s : String)
  | num (q : ℚ)
deriving DecidableEq

/-- The `degrees` argument (`TypeRangeFloat`): a single symmetric bound or a
range pair. -/
inductive DegreesInput where
  | single (d : ℚ)
  | range (lo hi : ℚ)
deriving DecidableEq

/-- A 4-dimensional torch tensor with a leading singleton channel dimension:
`apply_affine_transform` asserts `tensor.ndim == 4` and `len(tensor) == 1`,
so the model keeps the storage dtype and the single 3-D channel
`tensor[0]`. -/
structure Tensor where
  dtype : DType
  channel : Arr3
deriving DecidableEq

/-- An affine map from array indices to physical coordinates: a 3×3 linear
part (three rows) and an origin. -/
abbrev AffineQ : Type := Triple (Triple ℚ) × Triple ℚ

/-- An image record of a subject: `{DATA, AFFINE, TYPE}`. -/
structure ImageDict where
  type : ImageType
  data : Tensor
  affine : AffineQ
deriving DecidableEq

/-- A subject: its image records plus the `random_scaling` /
`random_rotation` metadata entries written by `apply_transform`
(non-image dictionary entries are skipped by `is_image_dict` and are not
modelled). -/
structure Subject where
  images : List ImageDict
  random_scaling : Option (Triple ℚ)
  random_rotation : Option (Triple ℚ)
deriving DecidableEq

/-- An sitk image: a pixel type and the voxel array. -/
structure SitkImage where
  pixelType : DType
  values : Arr3
deriving DecidableEq

/-- The configuration handed to `sitk.ResampleImageFilter` in
`apply_affine_transform` lines 171–176.  `interpolator` records the
interpolation enum passed through the external bijection
`get_sitk_interpolator`; the composite transform is recorded by its two
parameter vectors (`scaling_params`, and `rotation_params` in degrees), whose
geometric actions are `get_scaling_transform` and `get_rotation_transform`
below. -/
structure ResamplerConfig where
  interpolator : Interpolation
  referenceValues : Arr3
  defaultPixelValue : ℚ
  outputPixelType : DType
  transformScaling : Triple ℚ
  transformRotation : Triple ℚ
deriving DecidableEq

/-- The `RandomAffine` transform object after construction. -/
structure RandomAffine where
  scales : ℚ × ℚ
  degrees : ℚ × ℚ
  isotropic : Bool
  default_pad_value : PadInput
  interpolation : Interpolation
deriving DecidableEq

/-! ## Border statistics (`get_borders_mean`, lines 185–210) -/

/-- Arithmetic mean of a list of rationals, as NumPy's `ndarray.mean()`. -/
def mean (l : List ℚ) : ℚ := l.sum / l.length

/-- NumPy slice `array[0]` of a 3-D array (identical to `array[0, :, :]`). -/
def sliceFirst0 (a : Arr3) : List (List ℚ) := a.getD 0 []

/-- NumPy slice `array[-1]` of a 3-D array (identical to `array[-1, :, :]`). -/
def sliceLast0 (a : Arr3) : List (List ℚ) := a.getD (a.length - 1) []

/-- NumPy slice `array[:, 0, :]` of a 3-D array. -/
def sliceFirst1 (a : Arr3) : List (List ℚ) := a.map (fun p => p.getD 0 [])

/-- NumPy slice `array[:, -1, :]` of a 3-D array. -/
def sliceLast1 (a : Arr3) : List (List ℚ) := a.map (fun p => p.getD (p.length - 1) [])

/-- NumPy slice `array[:, :, 0]` of a 3-D array. -/
def sliceFirst2 (a : Arr3) : List (List ℚ) := a.map (fun p => p.map (fun r => r.getD 0 0))

/-- NumPy slice `array[:, :, -1]` of a 3-D array. -/
def sliceLast2 (a : Arr3) : List (List ℚ) :=
  a.map (fun p => p.map (fun r => r.getD (r.length - 1) 0))

/-- The flattened, concatenated border sample set built by `get_borders_mean`
(lines 187–197).  The source lists EIGHT slabs:
`array[0]`, `array[-1]`, `array[0, :, :]`, `array[-1, :, :]`,
`array[:, 0, :]`, `array[:, -1, :]`, `array[:, :, 0]`, `array[:, :, -1]`;
since `array[0]` is the same slice as `array[0, :, :]` (and likewise for
`-1`), the two extreme slabs of NumPy axis 0 each appear twice. -/
def borders (a : Arr3) : List ℚ :=
  (sliceFirst0 a).flatten ++ (sliceLast0 a).flatten ++
  (sliceFirst0 a).flatten ++ (sliceLast0 a).flatten ++
  (sliceFirst1 a).flatten ++ (sliceLast1 a).flatten ++
  (sliceFirst2 a).flatten ++ (sliceLast2 a).flatten

/-- Embedding of `get_borders_mean(image, filter_otsu)` (lines 185–210).
`otsuThreshold` stands for the external `sitk.OtsuThresholdImageFilter`
applied to the 1-D border image: the source reshapes the border samples to
`(1, 1, -1)`, runs the filter and reads `GetThreshold()`; here that whole
step is `otsuThreshold (borders a)`.  `values.any()` in NumPy is true iff
some element of `values` is nonzero. -/
def get_borders_mean (otsuThreshold : List ℚ → ℚ) (a : Arr3)
    (filter_otsu : Bool) : ℚ :=
  let bs := borders a
  if filter_otsu = false then mean bs
  else
    let threshold := otsuThreshold bs
    let values := bs.filter (fun v => decide (v < threshold))
    if values.any (fun v => v != 0) then mean values else mean bs

/-- Reference definition following the spec's words (for comparison with the
source's `borders`): "Extracts exactly 6 face slabs … the two extreme slices
along each of the 3 axes …, each face counted once". -/
def specBorders (a : Arr3) : List ℚ :=
  (sliceFirst0 a).flatten ++ (sliceLast0 a).flatten ++
  (sliceFirst1 a).flatten ++ (sliceLast1 a).flatten ++
  (sliceFirst2 a).flatten ++ (sliceLast2 a).flatten

/-- Reference definition following the spec's words: the arithmetic mean of
the multiset of voxels in exactly 6 face slabs, each face counted once. -/
def specBorderMean (a : Arr3) : ℚ := mean (specBorders a)

/-! ## Construction (`__init__` and helpers, lines 61–86) -/

/-- Embedding of the static method `RandomAffine.parse_default_value`
(lines 78–86): a number or one of the strings `"minimum"`, `"otsu"`,
`"mean"` is returned unchanged; anything else raises `ValueError`. -/
def parse_default_value (value : PadInput) : Except String PadInput :=
  match value with
  | .num q => .ok (.num q)
  | .str s =>
      if s = "minimum" ∨ s = "otsu" ∨ s = "mean" then .ok (.str s)
      else .error
        "Value for default_pad_value must be \"minimum\", \"otsu\", \"mean\" or a number"

/-- Modelled from the spec: `RandomTransform.parse_degrees` (base class, not
under `src/`) — a range with low > high is rejected with a configuration
error; a single bound `d` is interpreted as the range `(-d, d)` (invalid when
`d < 0`). -/
def parse_degrees : DegreesInput → Except String (ℚ × ℚ)
  | .single d => if d < 0 then .error "degrees range is invalid" else .ok (-d, d)
  | .range lo hi => if hi < lo then .error "degrees range is invalid" else .ok (lo, hi)

/-- Modelled from the spec: `RandomTransform.parse_interpolation` (base
class, not under `src/`) — accepts the interpolation enum unchanged. -/
def parse_interpolation (i : Interpolation) : Interpolation := i

/-- Embedding of `RandomAffine.__init__` (lines 61–76): stores `scales`
UNVALIDATED, parses `degrees` and `default_pad_value` (each may reject), and
stores the parsed interpolation.  The probability `p` and `seed` arguments
are handled by the base class and gate whether the transform runs at all;
they do not affect the transform itself and are not modelled. -/
def RandomAffine.init (scales : ℚ × ℚ) (degrees : DegreesInput)
    (isotropic : Bool) (default_pad_value : PadInput)
    (image_interpolation : Interpolation) : Except String RandomAffine :=
  match parse_degrees degrees with
  | .error e => .error e
  | .ok d =>
    match parse_default_value default_pad_value with
    | .error e => .error e
    | .ok v =>
      .ok { scales := scales, degrees := d, isotropic := isotropic,
            default_pad_value := v,
            interpolation := parse_interpolation image_interpolation }

/-! ## Parameter sampling (`get_params`, lines 110–120) -/

/-- One call of `torch.FloatTensor.uniform_(lo, hi)` on one entry, applied to
a raw uniform draw `u ∈ [0, 1]`. -/
def uniformDraw (lo hi u : ℚ) : ℚ := lo + (hi - lo) * u

/-- Embedding of the static method `RandomAffine.get_params`
(lines 110–120).  `torch.FloatTensor(3).uniform_(*scales)` consumes the
first three draws of the stream; `fill_(scaling_params[0])` overwrites all
three entries with the FIRST entry when `isotropic`; the rotation tensor
then consumes the next three draws.  Returns the scaling parameters, the
rotation parameters (degrees) and the remaining stream. -/
def get_params (scales : ℚ × ℚ) (degrees : ℚ × ℚ) (isotropic : Bool)
    (rng : List ℚ) : Triple ℚ × Triple ℚ × List ℚ :=
  let scaling : Triple ℚ :=
    ⟨uniformDraw scales.1 scales.2 (rng.getD 0 0),
     uniformDraw scales.1 scales.2 (rng.getD 1 0),
     uniformDraw scales.1 scales.2 (rng.getD 2 0)⟩
  let scaling := if isotropic then Triple.mk scaling.x scaling.x scaling.x
                 else scaling
  let rotation : Triple ℚ :=
    ⟨uniformDraw degrees.1 degrees.2 (rng.getD 3 0),
     uniformDraw degrees.1 degrees.2 (rng.getD 4 0),
     uniformDraw degrees.1 degrees.2 (rng.getD 5 0)⟩
  (scaling, rotation, rng.drop 6)

/-! ## Geometric transforms (lines 122–140 and 156–160) -/

/-- An sitk `ScaleTransform(3)`: diagonal scale factors and a fixed center.
A freshly constructed transform has its center at the physical origin. -/
structure ScaleTransform where
  scale : Triple ℚ
  center : Triple ℚ
deriving DecidableEq

/-- Embedding of the static method `RandomAffine.get_scaling_transform`
(lines 122–131): builds `sitk.ScaleTransform(3)` (center at the sitk
default, the origin) and sets the scale to `1 / scaling_params`
elementwise — the user-facing parameters are inverted so that `1.5` means
"objects look 1.5 times larger". -/
def get_scaling_transform (scaling_params : Triple ℚ) : ScaleTransform :=
  { scale := ⟨1 / scaling_params.x, 1 / scaling_params.y, 1 / scaling_params.z⟩,
    center := ⟨0, 0, 0⟩ }

/-- Point action of an sitk `ScaleTransform`: `T(x) = S·(x − c) + c` with
`S` the diagonal of scale factors and `c` the center. -/
def ScaleTransform.apply (t : ScaleTransform) (p : Triple ℚ) : Triple ℚ :=
  ⟨t.scale.x * (p.x - t.center.x) + t.center.x,
   t.scale.y * (p.y - t.center.y) + t.center.y,
   t.scale.z * (p.z - t.center.z) + t.center.z⟩

/-- Point action of an sitk `ScaleTransform` on real points (the scale
factors and center are cast from the stored rationals). -/
noncomputable def ScaleTransform.applyR (t : ScaleTransform) (p : Triple ℝ) : Triple ℝ :=
  ⟨(t.scale.x : ℝ) * (p.x - (t.center.x : ℝ)) + (t.center.x : ℝ),
   (t.scale.y : ℝ) * (p.y - (t.center.y : ℝ)) + (t.center.y : ℝ),
   (t.scale.z : ℝ) * (p.z - (t.center.z : ℝ)) + (t.center.z : ℝ)⟩

/-- An `sitk.Euler3DTransform`: three Euler angles in radians and a rotation
center.  A freshly constructed transform has its center at the physical
origin. -/
structure Euler3DTransform where
  angles : Triple ℝ
  center : Triple ℝ

/-- Embedding of the static method `RandomAffine.get_rotation_transform`
(lines 133–140): `sitk.Euler3DTransform()` — whose center stays at the sitk
default, the physical origin `(0, 0, 0)`, since the source never calls
`SetCenter` — with `SetRotation` of the degree values converted to radians
by `np.radians`. -/
noncomputable def get_rotation_transform (degrees : Triple ℝ) : Euler3DTransform :=
  { angles := ⟨degrees.x * Real.pi / 180, degrees.y * Real.pi / 180,
               degrees.z * Real.pi / 180⟩,
    center := ⟨0, 0, 0⟩ }

/-- Rotation about the first (x) axis by `θ`. -/
noncomputable def rotXAxis (θ : ℝ) (p : Triple ℝ) : Triple ℝ :=
  ⟨p.x, Real.cos θ * p.y - Real.sin θ * p.z,
   Real.sin θ * p.y + Real.cos θ * p.z⟩

/-- Rotation about the second (y) axis by `θ`. -/
noncomputable def rotYAxis (θ : ℝ) (p : Triple ℝ) : Triple ℝ :=
  ⟨Real.cos θ * p.x + Real.sin θ * p.z, p.y,
   -Real.sin θ * p.x + Real.cos θ * p.z⟩

/-- Rotation about the third (z) axis by `θ`. -/
noncomputable def rotZAxis (θ : ℝ) (p : Triple ℝ) : Triple ℝ :=
  ⟨Real.cos θ * p.x - Real.sin θ * p.y,
   Real.sin θ * p.x + Real.cos θ * p.y, p.z⟩

/-- Point action of an `itk::Euler3DTransform`:
`T(x) = R·(x − c) + c` where, with the default `ComputeZYX = false`, the
rotation matrix is `R = R_z · R_x · R_y`. -/
noncomputable def Euler3DTransform.apply (t : Euler3DTransform) (p : Triple ℝ) : Triple ℝ :=
  let q : Triple ℝ := ⟨p.x - t.center.x, p.y - t.center.y, p.z - t.center.z⟩
  let r := rotZAxis t.angles.z (rotXAxis t.angles.x (rotYAxis t.angles.y q))
  ⟨r.x + t.center.x, r.y + t.center.y, r.z + t.center.z⟩

/-- Point action of the composite built in `apply_affine_transform`
(lines 158–160): `AddTransform(scaling_transform)` then
`AddTransform(rotation_transform)`; an ITK composite transform applies its
queue in reverse order of addition (the transform added last is applied
first), so the composite maps `x ↦ scaling(rotation(x))`. -/
noncomputable def compositeApply (s : ScaleTransform) (r : Euler3DTransform)
    (p : Triple ℝ) : Triple ℝ :=
  s.applyR (r.apply p)

/-- Reference definition following the spec's words: the geometric center of
the volume in physical space, computed from the volume's shape and affine
map — the image under the affine of the continuous index
`((n₁−1)/2, (n₂−1)/2, (n₃−1)/2)`. -/
noncomputable def specVolumeCenter (shape : Triple ℕ) (linear : Triple (Triple ℝ))
    (origin : Triple ℝ) : Triple ℝ :=
  let c : Triple ℝ := ⟨((shape.x : ℝ) - 1) / 2, ((shape.y : ℝ) - 1) / 2,
                       ((shape.z : ℝ) - 1) / 2⟩
  ⟨linear.x.x * c.x + linear.x.y * c.y + linear.x.z * c.z + origin.x,
   linear.y.x * c.x + linear.y.y * c.y + linear.y.z * c.z + origin.y,
   linear.z.x * c.x + linear.z.y * c.y + linear.z.z * c.z + origin.z⟩

/-! ## Resampling (`apply_affine_transform`, lines 142–182) -/

/-- Flatten a 3-D array to the list of all its voxels. -/
def flatAll (a : Arr3) : List ℚ := (a.flatten).flatten

/-- Shape of a 3-D array, read off its nesting. -/
def dims (a : Arr3) : ℕ × ℕ × ℕ :=
  (a.length, (a.getD 0 []).length, ((a.getD 0 []).getD 0 []).length)

/-- Minimum voxel of a tensor channel (`tensor.min().item()`; `0` for the
empty tensor, on which torch raises). -/
def arr3Min (a : Arr3) : ℚ :=
  match flatAll a with
  | [] => 0
  | v :: vs => vs.foldl min v

/-- NumPy `array.transpose()` with no axes: reverses all three axes, so
`out[k][j][i] = a[i][j][k]` (the ITK-to-NumPy axis-order conversion of
line 180). -/
def transpose3 (a : Arr3) : Arr3 :=
  (List.range (dims a).2.2).map (fun k =>
    (List.range (dims a).2.1).map (fun j =>
      (List.range (dims a).1).map (fun i =>
        ((a.getD i []).getD j []).getD k 0)))

/-- Cast of one value under an in-place torch copy into a tensor of dtype
`d` (torch slice assignment converts to the destination dtype): integer
dtypes truncate toward zero; the rational model represents both float
precisions exactly, so the storage dtype, not a rounding step, is what the
model tracks for them. -/
def castTo (d : DType) (q : ℚ) : ℚ :=
  match d with
  | .int16 => ((q.num / (q.den : ℤ) : ℤ) : ℚ)
  | .float32 => q
  | .float64 => q

/-- Modelled from the spec: `RandomTransform.nib_to_sitk` (base class, not
under `src/`) — converts the channel array and affine to an sitk image; a
value-preserving axis-order conversion, modelled as the identity on the
nested array (the voxel multiset and dtype bookkeeping the claims concern
are unaffected by the axis order). -/
def nib_to_sitk (t : Tensor) (_affine : AffineQ) : SitkImage :=
  { pixelType := t.dtype, values := t.channel }

/-- The fill-value branch of `apply_affine_transform` (lines 162–169).
A non-numeric string other than the three keywords would make
`float(default_value)` raise; that is unreachable for a validated
configuration and modelled as `0`. -/
def resolveDefaultValue (otsuThreshold : List ℚ → ℚ) (pad : PadInput)
    (tensorChannel : Arr3) (imageValues : Arr3) : ℚ :=
  match pad with
  | .str "minimum" => arr3Min tensorChannel
  | .str "mean" => get_borders_mean otsuThreshold imageValues false
  | .str "otsu" => get_borders_mean otsuThreshold imageValues true
  | .num q => q
  | .str _ => 0

/-- The `sitk.ResampleImageFilter` configuration set up in
`apply_affine_transform` (lines 153–176): reference image = the input image
itself, the border-derived or fixed default pixel value, output pixel type
`sitk.sitkFloat32`, the composite transform's parameters, and the
interpolator for the selected interpolation enum. -/
def buildResamplerConfig (self : RandomAffine) (otsuThreshold : List ℚ → ℚ)
    (tensor : Tensor) (affine : AffineQ)
    (scaling_params rotation_params : Triple ℚ)
    (interpolation : Interpolation) : ResamplerConfig :=
  let image := nib_to_sitk tensor affine
  { interpolator := interpolation,
    referenceValues := image.values,
    defaultPixelValue :=
      resolveDefaultValue otsuThreshold self.default_pad_value tensor.channel
        image.values,
    outputPixelType := DType.float32,
    transformScaling := scaling_params,
    transformRotation := rotation_params }

/-- Embedding of `RandomAffine.apply_affine_transform` (lines 142–182).
`resampleExec` stands for the external `resampler.Execute(floating)`; the
resampled sitk image carries the configured output pixel type
(`sitk.sitkFloat32`).  The final `tensor[0] = torch.from_numpy(np_array)`
is an IN-PLACE copy into the existing tensor: torch converts the copied
values to the destination tensor's dtype, so the returned tensor keeps the
source tensor's dtype. -/
def apply_affine_transform (self : RandomAffine)
    (resampleExec : ResamplerConfig → Arr3) (otsuThreshold : List ℚ → ℚ)
    (tensor : Tensor) (affine : AffineQ)
    (scaling_params rotation_params : Triple ℚ)
    (interpolation : Interpolation) : Tensor :=
  let config := buildResamplerConfig self otsuThreshold tensor affine
    scaling_params rotation_params interpolation
  let resampled : SitkImage :=
    { pixelType := config.outputPixelType, values := resampleExec config }
  let np_array := transpose3 resampled.values
  { dtype := tensor.dtype,
    channel := np_array.map (fun p => p.map (fun r => r.map (castTo tensor.dtype))) }

/-! ## Orchestration (`apply_transform`, lines 88–108) -/

/-- The per-image interpolation selection of `apply_transform`
(lines 97–100): a LABEL volume is forced to nearest-neighbor, any other
volume uses the configured interpolation. -/
def chooseInterpolation (self : RandomAffine) (image_dict : ImageDict) :
    Interpolation :=
  if image_dict.type = ImageType.LABEL then Interpolation.NEAREST
  else self.interpolation

/-- The loop body of `apply_transform` (lines 94–107): replaces the image's
data with the resampled tensor, using the per-image interpolation. -/
def transformImage (self : RandomAffine)
    (resampleExec : ResamplerConfig → Arr3) (otsuThreshold : List ℚ → ℚ)
    (scaling_params rotation_params : Triple ℚ) (d : ImageDict) : ImageDict :=
  { d with data := (apply_affine_transform self resampleExec otsuThreshold
      d.data d.affine scaling_params rotation_params
      (chooseInterpolation self d)) }

/-- Modelled from the spec: `Subject.check_consistent_shape`
(`data/images.py`, not under `src/`) — all image volumes of the subject must
share an identical shape; a mismatch raises. -/
def checkConsistentShape (s : Subject) : Bool :=
  match s.images with
  | [] => true
  | d :: rest => rest.all (fun e => decide (dims e.data.channel = dims d.data.channel))

/-- Embedding of `RandomAffine.apply_transform` (lines 88–108).  The shape
check runs first: on mismatch the call raises, so no parameters are sampled
(the random stream is returned unconsumed) and no subject is produced (the
caller's subject is untouched).  On success the parameters are sampled once,
recorded into the subject metadata, and every image is resampled with the
same parameters. -/
def apply_transform (self : RandomAffine)
    (resampleExec : ResamplerConfig → Arr3) (otsuThreshold : List ℚ → ℚ)
    (s : Subject) (rng : List ℚ) : Except String Subject × List ℚ :=
  if checkConsistentShape s then
    let params := get_params self.scales self.degrees self.isotropic rng
    let scaling_params := params.1
    let rotation_params := params.2.1
    let s1 := { s with random_scaling := some scaling_params,
                       random_rotation := some rotation_params }
    let s2 := { s1 with images := (s1.images.map
      (transformImage self resampleExec otsuThreshold scaling_params
        rotation_params)) }
    (Except.ok s2, params.2.2)
  else (Except.error "Images in sample have inconsistent shapes", rng)

/-! ## Concrete fixtures used by counterexamples and witnesses -/

/-- A 3×3×3 test volume whose first NumPy-axis-0 face is all `9` and whose
remaining voxels are `0`. -/
def vol9 : Arr3 :=
  [[[9, 9, 9], [9, 9, 9], [9, 9, 9]],
   [[0, 0, 0], [0, 0, 0], [0, 0, 0]],
   [[0, 0, 0], [0, 0, 0], [0, 0, 0]]]

/-- The identity affine over the rationals. -/
def affineId : AffineQ := (⟨⟨1, 0, 0⟩, ⟨0, 1, 0⟩, ⟨0, 0, 1⟩⟩, ⟨0, 0, 0⟩)

/-- A concrete validated transform object: default scales `(0.9, 1.1)`,
degrees `(-10, 10)`, fixed pad value `0`, linear interpolation. -/
def selfFix : RandomAffine :=
  { scales := (9 / 10, 11 / 10), degrees := (-10, 10), isotropic := false,
    default_pad_value := .num 0, interpolation := .LINEAR }

/-- A concrete label-role image record. -/
def labelDict : ImageDict :=
  { type := .LABEL, data := { dtype := .float32, channel := [[[1]]] },
    affine := affineId }

/-- A concrete subject whose two image volumes have different shapes
(`1×1×1` vs `1×1×2`). -/
def subjBad : Subject :=
  { images :=
      [{ type := .INTENSITY, data := { dtype := .float32, channel := [[[1]]] },
         affine := affineId },
       { type := .LABEL, data := { dtype := .float32, channel := [[[1, 2]]] },
         affine := affineId }],
    random_scaling := none, random_rotation := none }

/-! ## Theorems -/

/-- Claim C2: FALSIFIED on the code (code bug).  On the 3×3×3 volume `vol9`,
`get_borders_mean` with `filter_otsu = false` returns `15/4` because the two
extreme faces of NumPy axis 0 are counted twice (the source lists both
`array[0]` and the identical slice `array[0, :, :]`, and both `array[-1]` and
`array[-1, :, :]`), while the mean of the 6 face slabs each counted once —
what the claim and the spec state — is `7/2`. -/
theorem get_borders_mean_duplicates_axis0_faces :
    get_borders_mean (fun _ => 0) vol9 false = 15 / 4 ∧
      specBorderMean vol9 = 7 / 2 ∧ (15 / 4 : ℚ) ≠ 7 / 2 := by
  refine ⟨?_, ?_, by norm_num⟩ <;>
    norm_num [get_borders_mean, borders, specBorderMean, specBorders, mean,
      sliceFirst0, sliceLast0, sliceFirst1, sliceLast1, sliceFirst2,
      sliceLast2, vol9]

/-- Claim C6: when no border value falls strictly below the Otsu threshold
computed over the border sample set, `get_borders_mean` with
`filter_otsu = true` returns exactly the unfiltered border mean, i.e. the
same value as with `filter_otsu = false`; no failure occurs.  Quantifying
over `otsuThreshold` makes this hold for whatever threshold the external
Otsu filter computes. -/
theorem otsu_empty_filter_falls_back (otsuThreshold : List ℚ → ℚ) (a : Arr3)
    (h : ∀ v ∈ borders a, ¬ v < otsuThreshold (borders a)) :
    get_borders_mean otsuThreshold a true =
      get_borders_mean otsuThreshold a false := by
  have hfil : (borders a).filter
      (fun v => decide (v < otsuThreshold (borders a))) = [] := by
    apply List.filter_eq_nil_iff.mpr
    intro v hv
    simpa using h v hv
  simp [get_borders_mean, hfil]

/-- Witness for `otsu_empty_filter_falls_back` at a concrete input: a 1×1×1
volume of value `1` with a threshold function returning `0` (no border value
lies strictly below the threshold). -/
theorem otsu_empty_filter_falls_back_witness :
    get_borders_mean (fun _ => 0) [[[1]]] true =
      get_borders_mean (fun _ => 0) [[[1]]] false :=
  otsu_empty_filter_falls_back (fun _ => 0) [[[1]]] (by decide)

/-- Claim C10: when the set of border values strictly below the Otsu
threshold is non-empty but consists entirely of zeros, `get_borders_mean`
with `filter_otsu = true` does not return the filtered mean (`0`) but falls
back to the unfiltered border mean: NumPy's `values.any()` tests for a
NONZERO value below the threshold, not for a value below the threshold. -/
theorem otsu_all_zero_filter_falls_back (otsuThreshold : List ℚ → ℚ) (a : Arr3)
    (_hne : (borders a).filter
      (fun v => decide (v < otsuThreshold (borders a))) ≠ [])
    (hz : ∀ v ∈ (borders a).filter
      (fun v => decide (v < otsuThreshold (borders a))), v = 0) :
    get_borders_mean otsuThreshold a true = mean (borders a) ∧
      mean ((borders a).filter
        (fun v => decide (v < otsuThreshold (borders a)))) = 0 := by
  have hany : ((borders a).filter
      (fun v => decide (v < otsuThreshold (borders a)))).any
        (fun v => v != 0) = false := by
    apply List.any_eq_false.mpr
    intro v hv
    simpa using hz v hv
  constructor
  · simp [get_borders_mean, hany]
  · have hsum : ((borders a).filter
        (fun v => decide (v < otsuThreshold (borders a)))).sum = 0 := by
      apply List.sum_eq_zero
      intro v hv
      exact hz v hv
    simp [mean, hsum]

/-- Witness for `otsu_all_zero_filter_falls_back` at a concrete input: a
1×1×2 volume `[0, 5]` with threshold `1` — the filtered set is seven zeros
(non-empty), and the result is the unfiltered border mean `5/2`, not `0`. -/
theorem otsu_all_zero_filter_falls_back_witness :
    get_borders_mean (fun _ => 1) [[[0, 5]]] true = mean (borders [[[0, 5]]]) ∧
      mean ((borders [[[0, 5]]]).filter
        (fun v => decide (v < (fun _ => (1 : ℚ)) (borders [[[0, 5]]])))) = 0 :=
  otsu_all_zero_filter_falls_back (fun _ => 1) [[[0, 5]]] (by decide) (by decide)

/-- Claim C3: FALSIFIED on the code (construction does not reject a
descending scale range).  `RandomAffine.__init__` stores `scales` without
any validation, so constructing with `scales = (2, 1)` — low greater than
high — succeeds. -/
theorem init_accepts_descending_scales :
    RandomAffine.init (2, 1) (.single 10) false (.str "otsu") .LINEAR =
      .ok { scales := (2, 1), degrees := (-10, 10), isotropic := false,
            default_pad_value := .str "otsu", interpolation := .LINEAR } := by
  rfl

/-- Claim C3 (amended): the scale range is NOT validated at construction
time: for every descending scale range, construction succeeds whenever the
`degrees` and `default_pad_value` arguments parse, and the invalid range is
stored unchanged (so it reaches sampling).  Only `degrees` and
`default_pad_value` are validated at construction. -/
theorem init_ignores_invalid_scales (lo hi : ℚ) (_h : hi < lo)
    (degrees : DegreesInput) (pad : PadInput) (interp : Interpolation)
    (isotropic : Bool) (d : ℚ × ℚ) (v : PadInput)
    (hd : parse_degrees degrees = .ok d)
    (hv : parse_default_value pad = .ok v) :
    RandomAffine.init (lo, hi) degrees isotropic pad interp =
      .ok { scales := (lo, hi), degrees := d, isotropic := isotropic,
            default_pad_value := v, interpolation := interp } := by
  simp [RandomAffine.init, hd, hv, parse_interpolation]

/-- Witness for `init_ignores_invalid_scales` at a concrete input: the
descending scale range `(3, 1)` with valid degrees `(-5, 5)` and pad value
`7`. -/
theorem init_ignores_invalid_scales_witness :
    RandomAffine.init (3, 1) (.range (-5) 5) true (.num 7) .BSPLINE =
      .ok { scales := (3, 1), degrees := (-5, 5), isotropic := true,
            default_pad_value := .num 7, interpolation := .BSPLINE } :=
  init_ignores_invalid_scales 3 1 (by decide) (.range (-5) 5) (.num 7)
    .BSPLINE true (-5, 5) (.num 7) rfl rfl

/-- Claim C9: with `isotropic = true`, the sampled scale parameters satisfy
`s₁ = s₂ = s₃`, and all three equal the value drawn from the FIRST uniform
draw of the stream (`fill_(scaling_params[0])` overwrites axes 2 and 3 with
the axis-1 value, not with a mean). -/
theorem get_params_isotropic_first_draw (scales degrees : ℚ × ℚ)
    (rng : List ℚ) :
    (get_params scales degrees true rng).1.x =
        uniformDraw scales.1 scales.2 (rng.getD 0 0) ∧
      (get_params scales degrees true rng).1.y =
        (get_params scales degrees true rng).1.x ∧
      (get_params scales degrees true rng).1.z =
        (get_params scales degrees true rng).1.x :=
  ⟨rfl, rfl, rfl⟩

/-- Claim C5: the scale transform built from sampled parameters
`(s₁, s₂, s₃)` with all `sᵢ > 0` carries the INVERTED factors `1/sᵢ` and its
point action multiplies axis `i` by `1/sᵢ` (the transform's center is the
origin, so `T(x)ᵢ = xᵢ/sᵢ`). -/
theorem get_scaling_transform_inverts (s : Triple ℚ)
    (_h : 0 < s.x ∧ 0 < s.y ∧ 0 < s.z) (p : Triple ℚ) :
    (get_scaling_transform s).scale = ⟨1 / s.x, 1 / s.y, 1 / s.z⟩ ∧
      (get_scaling_transform s).apply p = ⟨p.x / s.x, p.y / s.y, p.z / s.z⟩ := by
  refine ⟨rfl, ?_⟩
  simp only [get_scaling_transform, ScaleTransform.apply, Triple.mk.injEq]
  refine ⟨by ring, by ring, by ring⟩

/-- Witness for `get_scaling_transform_inverts` at a concrete input:
parameters `(2, 4, 5)` and point `(10, 10, 10)`. -/
theorem get_scaling_transform_inverts_witness :
    (get_scaling_transform ⟨2, 4, 5⟩).scale = ⟨1 / 2, 1 / 4, 1 / 5⟩ ∧
      (get_scaling_transform ⟨2, 4, 5⟩).apply ⟨10, 10, 10⟩ =
        ⟨10 / 2, 10 / 4, 10 / 5⟩ :=
  get_scaling_transform_inverts ⟨2, 4, 5⟩ (by decide) ⟨10, 10, 10⟩

/-- Claim C7: the resampler configuration built for a volume inside
`apply_transform` uses nearest-neighbor interpolation whenever the volume's
role tag is LABEL, regardless of the configured interpolation, and uses the
configured interpolation for every non-label volume. -/
theorem label_volumes_force_nearest (self : RandomAffine)
    (otsuThreshold : List ℚ → ℚ) (sp rp : Triple ℚ) (d : ImageDict) :
    (d.type = ImageType.LABEL →
      (buildResamplerConfig self otsuThreshold d.data d.affine sp rp
        (chooseInterpolation self d)).interpolator = Interpolation.NEAREST) ∧
    (d.type ≠ ImageType.LABEL →
      (buildResamplerConfig self otsuThreshold d.data d.affine sp rp
        (chooseInterpolation self d)).interpolator = self.interpolation) := by
  constructor <;> intro h <;>
    simp [buildResamplerConfig, chooseInterpolation, h]

/-- Witness for `label_volumes_force_nearest` at a concrete input: the
LABEL-role record `labelDict` under a transform configured with LINEAR
interpolation. -/
theorem label_volumes_force_nearest_witness :
    (buildResamplerConfig selfFix (fun _ => 0) labelDict.data labelDict.affine
      ⟨1, 1, 1⟩ ⟨0, 0, 0⟩ (chooseInterpolation selfFix labelDict)).interpolator =
      Interpolation.NEAREST :=
  (label_volumes_force_nearest selfFix (fun _ => 0) ⟨1, 1, 1⟩ ⟨0, 0, 0⟩
    labelDict).1 rfl

/-- Claim C4: FALSIFIED on the code (stored precision follows the source
tensor).  The resampler is configured to PRODUCE `sitk.sitkFloat32` output,
but `tensor[0] = torch.from_numpy(np_array)` copies the result in place into
the source tensor, converting to the source dtype: a float64 source tensor
comes back with dtype float64, not float32. -/
theorem float64_storage_not_float32 :
    (apply_affine_transform selfFix (fun _ => [[[1]]]) (fun _ => 0)
      { dtype := DType.float64, channel := [[[1]]] } affineId ⟨1, 1, 1⟩
      ⟨0, 0, 0⟩ Interpolation.LINEAR).dtype = DType.float64 ∧
      DType.float64 ≠ DType.float32 :=
  ⟨rfl, by decide⟩

/-- Claim C4 (amended): the resampler always PRODUCES single-precision
output (its configured output pixel type is `sitk.sitkFloat32` for every
input), but the result is STORED back into the source tensor in place, so
the stored dtype equals the source tensor's dtype — single precision only
when the source tensor is already float32. -/
theorem resampler_float32_but_storage_keeps_dtype (self : RandomAffine)
    (resampleExec : ResamplerConfig → Arr3) (otsuThreshold : List ℚ → ℚ)
    (tensor : Tensor) (affine : AffineQ) (sp rp : Triple ℚ)
    (interp : Interpolation) :
    (buildResamplerConfig self otsuThreshold tensor affine sp rp
        interp).outputPixelType = DType.float32 ∧
      (apply_affine_transform self resampleExec otsuThreshold tensor affine
        sp rp interp).dtype = tensor.dtype :=
  ⟨rfl, rfl⟩

/-- Claim C8: when the subject's volumes do not all share the same shape,
`apply_transform` fails on the shape check before anything else happens: the
result is the error alone, the random stream comes back unconsumed (no
parameter was sampled), and no transformed subject is produced (the caller's
subject is exactly as it was — in the source the exception propagates before
any volume is written). -/
theorem inconsistent_shapes_abort_before_sampling (self : RandomAffine)
    (resampleExec : ResamplerConfig → Arr3) (otsuThreshold : List ℚ → ℚ)
    (s : Subject) (rng : List ℚ) (h : checkConsistentShape s = false) :
    apply_transform self resampleExec otsuThreshold s rng =
      (Except.error "Images in sample have inconsistent shapes", rng) := by
  simp [apply_transform, h]

/-- Witness for `inconsistent_shapes_abort_before_sampling` at a concrete
input: the subject `subjBad` whose two volumes have shapes 1×1×1 and
1×1×2. -/
theorem inconsistent_shapes_abort_before_sampling_witness :
    apply_transform selfFix (fun _ => [[[1]]]) (fun _ => 0) subjBad [] =
      (Except.error "Images in sample have inconsistent shapes", []) :=
  inconsistent_shapes_abort_before_sampling selfFix (fun _ => [[[1]]])
    (fun _ => 0) subjBad [] (by decide)

/-- Claim C1: FALSIFIED on the code (code bug).  The source never calls
`SetCenter`, so the rotation transform keeps the sitk default center — the
physical ORIGIN, not the volume's geometric center.  Concretely, for a 3×3×3
volume with identity direction and origin `(10, 0, 0)` the geometric center
in physical space is `(11, 1, 1)`; under the combined transform built by the
code with identity scaling and a 90° rotation about the third axis, the
physical origin is a fixed point while the volume's center moves to
`(-1, 11, 1)`: the rotation is anchored at the origin, contradicting the
claim (and the class docstring "Rotations are performed around the center of
the image"). -/
theorem rotation_anchored_at_origin_not_center :
    (get_rotation_transform ⟨0, 0, 90⟩).center = ⟨0, 0, 0⟩ ∧
    specVolumeCenter ⟨3, 3, 3⟩ ⟨⟨1, 0, 0⟩, ⟨0, 1, 0⟩, ⟨0, 0, 1⟩⟩ ⟨10, 0, 0⟩ =
      ⟨11, 1, 1⟩ ∧
    compositeApply (get_scaling_transform ⟨1, 1, 1⟩)
      (get_rotation_transform ⟨0, 0, 90⟩) ⟨0, 0, 0⟩ = ⟨0, 0, 0⟩ ∧
    compositeApply (get_scaling_transform ⟨1, 1, 1⟩)
      (get_rotation_transform ⟨0, 0, 90⟩) ⟨11, 1, 1⟩ = ⟨-1, 11, 1⟩ ∧
    compositeApply (get_scaling_transform ⟨1, 1, 1⟩)
      (get_rotation_transform ⟨0, 0, 90⟩) ⟨11, 1, 1⟩ ≠ ⟨11, 1, 1⟩ := by
  have hrad : (90 : ℝ) * Real.pi / 180 = Real.pi / 2 := by ring
  have hrad0 : (0 : ℝ) * Real.pi / 180 = 0 := by ring
  refine ⟨rfl, ?_, ?_, ?_, ?_⟩
  · simp only [specVolumeCenter, Triple.mk.injEq]
    norm_num
  · simp only [compositeApply, ScaleTransform.applyR, Euler3DTransform.apply,
      rotXAxis, rotYAxis, rotZAxis, get_rotation_transform,
      get_scaling_transform, hrad, hrad0, Real.cos_pi_div_two,
      Real.sin_pi_div_two, Real.cos_zero, Real.sin_zero, Triple.mk.injEq]
    norm_num
  · simp only [compositeApply, ScaleTransform.applyR, Euler3DTransform.apply,
      rotXAxis, rotYAxis, rotZAxis, get_rotation_transform,
      get_scaling_transform, hrad, hrad0, Real.cos_pi_div_two,
      Real.sin_pi_div_two, Real.cos_zero, Real.sin_zero, Triple.mk.injEq]
    norm_num
  · simp only [compositeApply, ScaleTransform.applyR, Euler3DTransform.apply,
      rotXAxis, rotYAxis, rotZAxis, get_rotation_transform,
      get_scaling_transform, hrad, hrad0, Real.cos_pi_div_two,
      Real.sin_pi_div_two, Real.cos_zero, Real.sin_zero, Triple.mk.injEq]
    norm_num
